import Mathlib

/-!
Verification development for the `tgbot` repository (a Telegram ↔ MCP
bridge).  The Python sources are shallowly embedded below: pure helpers
become Lean functions, remote Telethon calls become oracle functions
carried in an environment record, and exception-based control flow
becomes `Except`.  Strings are modelled character-wise (`String.data`),
matching Python's view of `str` as a sequence of code points; the
Python string methods used by the source are re-implemented on that
representation so that every definition evaluates inside the kernel.
-/

namespace Tgbot

/-! ## Python string primitives (character-wise) -/

/-- Python `str.strip()` (no argument): drop leading and trailing
whitespace. -/
def pyStrip (s : String) : String :=
  ⟨((s.data.dropWhile Char.isWhitespace).reverse.dropWhile Char.isWhitespace).reverse⟩

/-- Python `str.lower()` restricted to ASCII letters (the embedding's
witnesses only use ASCII; `Char.toLower` lowers exactly `A`–`Z`). -/
def pyLower (s : String) : String := ⟨s.data.map Char.toLower⟩

/-- Python `str.startswith(p)`. -/
def pyStartsWith (s p : String) : Bool := p.data.isPrefixOf s.data

/-- Python slicing `s[n:]` (by code points). -/
def pyDrop (s : String) (n : Nat) : String := ⟨s.data.drop n⟩

/-- Python slicing `s[:n]` (by code points). -/
def pyTake (s : String) (n : Nat) : String := ⟨s.data.take n⟩

/-- Python `len(s)` (number of code points). -/
def pyLen (s : String) : Nat := s.data.length

/-- String concatenation on the character representation. -/
def pyAppend (a b : String) : String := ⟨a.data ++ b.data⟩

/-- Python `s.split(c)` for a single-character separator: empty pieces
are kept, exactly as in Python. -/
def pySplitOnChar (c : Char) (s : String) : List String :=
  (s.data.splitOnP (· = c)).map String.mk

/-- Python `s.split()` (no argument): split on whitespace runs and
discard empty pieces. -/
def pySplitWs (s : String) : List String :=
  ((s.data.splitOnP Char.isWhitespace).filter (· ≠ [])).map String.mk

/-- Python `" ".join(parts)`. -/
def pyJoinSpace (parts : List String) : String :=
  ⟨List.intercalate [' '] (parts.map String.data)⟩

/-- Python `needle in hay` (substring containment). -/
def pyContains (hay needle : String) : Bool :=
  (List.range (hay.data.length + 1)).any (fun i => needle.data.isPrefixOf (hay.data.drop i))

/-- Python `A or B` for an optional string `A`: `A` when it is present
and non-empty (truthy), otherwise `B`. -/
def pyOr (o : Option String) (d : String) : String :=
  match o with
  | some s => if s = "" then d else s
  | none => d

/-! ## Telethon entities

The remote entity subtypes that the source dispatches on
(`telethon.tl.types.User / Chat / Channel / ChatForbidden /
ChannelForbidden`), flattened to the attributes the repository
reads. -/

inductive TLEntity where
  | user (id : Int) (firstName lastName username : Option String)
      (verified restricted : Bool)
  | chat (id : Int) (title : String) (participants : Option Int)
  | channel (id : Int) (title : String) (username : Option String)
      (megagroup broadcast : Bool) (participants : Option Int)
      (verified restricted : Bool)
  | chatForbidden (id : Int) (title : String)
  | channelForbidden (id : Int) (title : String)
deriving DecidableEq, Repr

namespace TLEntity

/-- The `id` attribute (every Telethon entity has one). -/
def eid : TLEntity → Int
  | .user i _ _ _ _ _ => i
  | .chat i _ _ => i
  | .channel i _ _ _ _ _ _ _ => i
  | .chatForbidden i _ => i
  | .channelForbidden i _ => i

/-- Python `getattr(entity, "username", None)`: only users and
channels carry a `username` attribute. -/
def usernameAttr : TLEntity → Option String
  | .user _ _ _ u _ _ => u
  | .channel _ _ u _ _ _ _ _ => u
  | _ => none

/-- Python `getattr(entity, "megagroup", False)`. -/
def megagroupAttr : TLEntity → Bool
  | .channel _ _ _ m _ _ _ _ => m
  | _ => false

/-- Python `getattr(entity, "broadcast", False)`. -/
def broadcastAttr : TLEntity → Bool
  | .channel _ _ _ _ b _ _ _ => b
  | _ => false

/-- Python `getattr(entity, "participants_count", None)`. -/
def participantsAttr : TLEntity → Option Int
  | .chat _ _ p => p
  | .channel _ _ _ _ _ p _ _ => p
  | _ => none

/-- Python `getattr(entity, "verified", False)`. -/
def verifiedAttr : TLEntity → Bool
  | .user _ _ _ _ v _ => v
  | .channel _ _ _ _ _ _ v _ => v
  | _ => false

/-- Python `getattr(entity, "restricted", False)`. -/
def restrictedAttr : TLEntity → Bool
  | .user _ _ _ _ _ r => r
  | .channel _ _ _ _ _ _ _ r => r
  | _ => false

/-- `isinstance(entity, types.User)`. -/
def isUser : TLEntity → Bool
  | .user .. => true
  | _ => false

/-- `isinstance(entity, types.Channel)` (forbidden channels are a
separate class and do not count). -/
def isChannel : TLEntity → Bool
  | .channel .. => true
  | _ => false

end TLEntity

/-- `tools._entity_type`: classify an entity, checking `Channel` first
(megagroup → `"supergroup"`, broadcast → `"channel"`, other channels →
`"channel"`), then `Chat`, then `User`, then the forbidden classes.
The final `entity.__class__.__name__.lower()` fallback is unreachable
for this closed set of subtypes. -/
def entityType : TLEntity → String
  | .channel _ _ _ mega broad _ _ _ =>
      if mega then "supergroup" else if broad then "channel" else "channel"
  | .chat .. => "group"
  | .user .. => "user"
  | .chatForbidden .. => "forbidden"
  | .channelForbidden .. => "forbidden"

/-- `tools._entity_name`: display name of an entity.  For channels and
chats: `title or "(без названия)"`.  For users: the space-joined
non-empty name parts if any, else `"@" + username` when the username is
truthy; otherwise control falls to the final
`getattr(entity, "title", None) or getattr(entity, "username", default)`
line, which for a user yields its (falsy) username value — `None`
becomes Python `None`, the empty string stays `""`.  For the forbidden
classes the final line yields the title, or the default
`"Неизвестный чат"` when the title is empty. -/
def entityName : TLEntity → Option String
  | .chat _ t _ => some (if t = "" then "(без названия)" else t)
  | .channel _ t _ _ _ _ _ _ => some (if t = "" then "(без названия)" else t)
  | .user _ f l u _ _ =>
      let parts := ([f, l].filterMap id).filter (· ≠ "")
      let full := pyStrip (pyJoinSpace parts)
      if full ≠ "" then some full
      else
        match u with
        | some un => if un = "" then some "" else some (pyAppend "@" un)
        | none => none
  | .chatForbidden _ t => some (if t = "" then "Неизвестный чат" else t)
  | .channelForbidden _ t => some (if t = "" then "Неизвестный чат" else t)

/-! ## Messages and the remote-client oracle -/

/-- Decidable equality for `Except` (needed so that concrete witness
evaluations can go through `decide`). -/
instance {ε α : Type} [DecidableEq ε] [DecidableEq α] : DecidableEq (Except ε α) := fun a b =>
  match a, b with
  | .ok x, .ok y =>
      if h : x = y then .isTrue (by rw [h]) else .isFalse (by intro hc; cases hc; exact h rfl)
  | .error x, .error y =>
      if h : x = y then .isTrue (by rw [h]) else .isFalse (by intro hc; cases hc; exact h rfl)
  | .ok _, .error _ => .isFalse (by intro hc; cases hc)
  | .error _, .ok _ => .isFalse (by intro hc; cases hc)

/-- A Telethon message as read by `tools.search_messages`: the
attributes the code accesses, plus the outcome of the remote
`message.get_sender()` call (`Except.error` models the call raising;
`Except.ok none` models it returning `None`).  The timezone formatting
of `message.date` is abstracted into the already-formatted
`dateIso` field. -/
structure TMessage where
  mid : Int
  text : Option String
  message : Option String
  dateIso : Option String
  senderId : Option Int
  link : Option String
  getSender : Except Unit (Option TLEntity)
deriving DecidableEq, Repr

/-- One element of `client.iter_dialogs()` as used in `tools.py`:
Telethon's `Dialog` wrapper exposing `name` and `entity`. -/
structure ToolDialog where
  name : String
  entity : TLEntity
deriving DecidableEq, Repr

/-- Oracle for the connected Telethon client, as used by `tools.py`:
`byId`/`byName` are `client.get_entity` on an integer / string argument
(`none` models the call raising), `dialogs` is the stream produced by
`client.iter_dialogs()`, and `messagesFor e q` is the stream produced
by `client.iter_messages(e, search=q)` before the `limit` cut, where an
`Except.error` element models the iteration raising at that point. -/
structure ClientEnv where
  byId : Int → Option TLEntity
  byName : String → Option TLEntity
  dialogs : List ToolDialog
  messagesFor : TLEntity → String → List (Except Unit TMessage)

/-! ## Errors -/

/-- Error conditions surfaced by the tool layer, the resolver and the
connection accessor. -/
inductive ToolErr where
  | emptyChat
  | notFound
  | emptyQuery
  | nonPositiveLimit
  | emptyMessage
  | remoteFailure
  | unknownTool
  | unauthorized
  | rateLimited (seconds : Nat)
deriving DecidableEq, Repr

/-! ## The chat resolver (`tools._resolve_dialog`)

The function is embedded together with a trace of the remote lookup
attempts it makes, so that the order of the resolution strategies is
itself a provable artefact. -/

/-- One remote resolution attempt. -/
inductive Attempt where
  | numeric (n : Int)
  | handle (s : String)
  | titleScan
deriving DecidableEq, Repr

/-- `re.fullmatch(r"-?\d+", s)`: an optional leading minus sign
followed by one or more digits, spanning the whole string. -/
def isNumericRef (s : String) : Bool :=
  let t := if pyStartsWith s "-" then pyDrop s 1 else s
  !t.data.isEmpty && t.data.all Char.isDigit

/-- Decimal value of a digit string. -/
def digitsToNat (l : List Char) : Nat :=
  l.foldl (fun acc c => acc * 10 + (c.toNat - 48)) 0

/-- Python `int(s)` on a string matching `-?\d+`. -/
def refInt (s : String) : Int :=
  if pyStartsWith s "-" then - Int.ofNat (digitsToNat (pyDrop s 1).data)
  else Int.ofNat (digitsToNat s.data)

/-- Handle normalisation inside `tools._resolve_dialog`: strip a
`https://`/`http://` URL down to its last path component, then strip a
leading `@`. -/
def cleanedHandle (ref : String) : String :=
  let c :=
    if pyStartsWith ref "https://" || pyStartsWith ref "http://" then
      (pySplitOnChar '/' ref).getLastD ""
    else ref
  if pyStartsWith c "@" then pyDrop c 1 else c

/-- Strategy (c) of the resolver: scan the caller's dialogs for the
first exact case-insensitive title match. -/
def titleScanFind (env : ClientEnv) (ref : String) : Option ToolDialog :=
  env.dialogs.find? (fun d => pyLower d.name = pyLower ref)

/-- Third step of `tools._resolve_dialog`: the title scan, or the
"not found" error once it also fails. -/
def titleStep (env : ClientEnv) (ref : String) (tr : List Attempt) :
    Except ToolErr TLEntity × List Attempt :=
  match titleScanFind env ref with
  | some d => (.ok d.entity, tr ++ [.titleScan])
  | none => (.error .notFound, tr ++ [.titleScan])

/-- Second step of `tools._resolve_dialog`: `get_entity` on the
cleaned handle; a raise (`none`) falls through to the title scan. -/
def handleStep (env : ClientEnv) (ref : String) (tr : List Attempt) :
    Except ToolErr TLEntity × List Attempt :=
  let cleaned := cleanedHandle ref
  match env.byName cleaned with
  | some e => (.ok e, tr ++ [.handle cleaned])
  | none => titleStep env ref (tr ++ [.handle cleaned])

/-- `tools._resolve_dialog` (after the client has been obtained): trim
the reference, reject the empty string, then try `get_entity(int(ref))`
when the whole string matches `-?\d+` (a raise falls through), then the
handle lookup, then the title scan.  The second component records the
remote lookups attempted, in order. -/
def resolveDialog (env : ClientEnv) (reference : String) :
    Except ToolErr TLEntity × List Attempt :=
  let ref := pyStrip reference
  if ref = "" then (.error .emptyChat, [])
  else if isNumericRef ref then
    match env.byId (refInt ref) with
    | some e => (.ok e, [.numeric (refInt ref)])
    | none => handleStep env ref [.numeric (refInt ref)]
  else handleStep env ref []

/-- `tools._resolve_dialog` including its first line: the function
obtains the connected client (`service.get_client()`) before looking at
the reference at all, so an unauthorized session surfaces before the
empty-reference validation. -/
def resolveDialogSvc (authorized : Bool) (env : ClientEnv) (reference : String) :
    Except ToolErr TLEntity × List Attempt :=
  if authorized = false then (.error .unauthorized, [])
  else resolveDialog env reference

/-! Spec-side rendering of the resolver used to state claim C1: an
ordered list of strategies, each returning an optional success, the
result being the first success (spec §4.2 and §9). -/

/-- First defined element of a list of optional results. -/
def firstSome {α : Type} : List (Option α) → Option α
  | [] => none
  | some a :: _ => some a
  | none :: rest => firstSome rest

/-- Modelled from the spec's words (§4.2): the ordered strategy
results for a trimmed, non-empty reference — numeric-ID lookup when the
whole string is an optional-sign decimal integer, then the handle
lookup, then the title scan. -/
def specStrategies (env : ClientEnv) (ref : String) : List (Option TLEntity) :=
  (if isNumericRef ref then [env.byId (refInt ref)] else [])
    ++ [env.byName (cleanedHandle ref), (titleScanFind env ref).map ToolDialog.entity]

/-- Modelled from the spec's words (§4.2): resolution returns the first
strategy's success and fails with "not found" only after all
strategies are exhausted. -/
def specResolve (env : ClientEnv) (reference : String) : Except ToolErr TLEntity :=
  let ref := pyStrip reference
  if ref = "" then .error .emptyChat
  else
    match firstSome (specStrategies env ref) with
    | some e => .ok e
    | none => .error .notFound

/-! ## `tools._shorten` and message records -/

/-- Whitespace normalisation inside `tools._shorten`:
`" ".join(text.split())`. -/
def normalizeWs (text : String) : String := pyJoinSpace (pySplitWs text)

/-- `tools._shorten`: normalise whitespace; return the text unchanged
when it fits in `limit` code points, else the first `limit - 1` code
points followed by a one-character ellipsis. -/
def shorten (text : String) (limit : Nat) : String :=
  let clean := normalizeWs text
  if pyLen clean ≤ limit then clean
  else pyAppend (pyTake clean (limit - 1)) "…"

/-- One entry of the `messages` array built by
`tools.search_messages`. -/
structure MessageRecord where
  mid : Int
  date : Option String
  snippet : String
  text : String
  sender : Option String
  senderId : Option Int
  link : Option String
deriving DecidableEq, Repr

/-- The per-message body of the loop in `tools.search_messages`: the
best-effort `get_sender` (`except Exception: sender = None`), the
`message.text or message.message or ""` fallback chain, the snippet,
and the remaining field copies. -/
def mkMessageRecord (m : TMessage) : MessageRecord :=
  let sender :=
    match m.getSender with
    | .error _ => none
    | .ok none => none
    | .ok (some s) => entityName s
  let text := pyOr m.text (pyOr m.message "")
  { mid := m.mid
    date := m.dateIso
    snippet := shorten text 280
    text := text
    sender := sender
    senderId := m.senderId
    link := m.link }

/-- Drain the message stream: a failure of the iteration itself has no
handler in `tools.search_messages` and aborts the whole call, while
each successfully yielded message becomes a record. -/
def collectMessages : List (Except Unit TMessage) → Except ToolErr (List MessageRecord)
  | [] => .ok []
  | .error _ :: _ => .error .remoteFailure
  | .ok m :: rest =>
      match collectMessages rest with
      | .error e => .error e
      | .ok rs => .ok (mkMessageRecord m :: rs)

/-- The `chat` block of the structured result of
`tools.search_messages`. -/
structure ChatInfo where
  cid : Option Int
  ctype : String
  title : Option String
  username : Option String
deriving DecidableEq, Repr

/-- Structured content returned by `tools.search_messages`. -/
structure SearchOut where
  chat : ChatInfo
  query : String
  messages : List MessageRecord
deriving DecidableEq, Repr

/-- `tools.search_messages`: reject an empty (or whitespace-only)
query, reject a non-positive limit, resolve the chat reference, then
serialize up to `limit` matching messages.  The human-readable preview
text is not modelled; the structured content is. -/
def searchMessagesTool (env : ClientEnv) (chat query : String) (limit : Int) :
    Except ToolErr SearchOut :=
  if pyStrip query = "" then .error .emptyQuery
  else if limit ≤ 0 then .error .nonPositiveLimit
  else
    match (resolveDialog env chat).1 with
    | .error e => .error e
    | .ok entity =>
      match collectMessages ((env.messagesFor entity query).take limit.toNat) with
      | .error e => .error e
      | .ok records =>
          .ok { chat := { cid := some entity.eid
                          ctype := entityType entity
                          title := entityName entity
                          username := entity.usernameAttr }
                query := query
                messages := records }

/-! ## `tools.list_groups` -/

/-- One entry of the `groups` array built by `tools.list_groups`. -/
structure GroupRecord where
  gid : Int
  title : String
  gtype : String
  username : Option String
  isMegagroup : Bool
  isBroadcast : Bool
  participants : Option Int
deriving DecidableEq, Repr

/-- The filter of the loop body in `tools.list_groups`: users are
always skipped, broadcast channels require `include_channels`, other
entity classes (the forbidden ones included) are skipped, and without
`include_private` an entity with a falsy `username` is skipped. -/
def groupRecordOf (include_private include_channels : Bool) (d : ToolDialog) :
    Option GroupRecord :=
  match d.entity with
  | .user .. => none
  | .channel _ _ _ _ broad _ _ _ =>
      if broad && !include_channels then none
      else if !include_private && (pyOr d.entity.usernameAttr "" = "") then none
      else some { gid := d.entity.eid, title := d.name, gtype := entityType d.entity
                  username := d.entity.usernameAttr
                  isMegagroup := d.entity.megagroupAttr
                  isBroadcast := d.entity.broadcastAttr
                  participants := d.entity.participantsAttr }
  | .chat .. =>
      if !include_private && (pyOr d.entity.usernameAttr "" = "") then none
      else some { gid := d.entity.eid, title := d.name, gtype := entityType d.entity
                  username := d.entity.usernameAttr
                  isMegagroup := d.entity.megagroupAttr
                  isBroadcast := d.entity.broadcastAttr
                  participants := d.entity.participantsAttr }
  | _ => none

/-- The accumulation loop of `tools.list_groups`: dialogs are taken in
iteration order and the loop breaks as soon as `limit` records have
been collected.  No sorting happens. -/
def listGroupsGo (include_private include_channels : Bool) (limit : Int) :
    List ToolDialog → List GroupRecord → List GroupRecord
  | [], acc => acc.reverse
  | d :: rest, acc =>
      match groupRecordOf include_private include_channels d with
      | none => listGroupsGo include_private include_channels limit rest acc
      | some r =>
          if (Int.ofNat (r :: acc).length) ≥ limit then ((r :: acc).reverse)
          else listGroupsGo include_private include_channels limit rest (r :: acc)

/-- `tools.list_groups`: reject a non-positive limit, then collect the
filtered dialogs in iteration order (structured content only; the
preview text is not modelled). -/
def listGroups (env : ClientEnv) (limit : Int)
    (include_private include_channels : Bool) : Except ToolErr (List GroupRecord) :=
  if limit ≤ 0 then .error .nonPositiveLimit
  else .ok (listGroupsGo include_private include_channels limit env.dialogs [])

/-! ## The tool-dispatch layer (`server._call_tool`) -/

/-- The argument bag of a tool invocation, after the JSON decoding that
the MCP runtime performs (`int(...)`/`bool(...)`/`str(...)` coercions
of well-typed arguments are identities and are not modelled
further). -/
structure ToolArgs where
  limit : Option Int
  chat : Option String
  query : Option String
  includePrivate : Option Bool
  includeChannels : Option Bool

/-- `max(1, min(int(arguments.get("limit", 50)), 500))`. -/
def clampListLimit (n : Int) : Int := max 1 (min n 500)

/-- `max(1, min(int(arguments.get("limit", 20)), 100))`. -/
def clampSearchLimit (n : Int) : Int := max 1 (min n 100)

/-- Result of a dispatched tool call. -/
inductive ToolResult where
  | groups (records : List GroupRecord)
  | search (out : SearchOut)
deriving DecidableEq, Repr

/-- `server._call_tool`: route by tool name, clamp the limit into its
declared bounds, default and coerce the remaining arguments
(`arguments.get("chat", "").strip()` turns a missing chat into the
empty string), and call the matching tool; unknown names fail. -/
def callTool (env : ClientEnv) (toolName : String) (args : ToolArgs) :
    Except ToolErr ToolResult :=
  if toolName = "telegram_list_groups" then
    match listGroups env (clampListLimit (args.limit.getD 50))
        (args.includePrivate.getD true) (args.includeChannels.getD false) with
    | .error e => .error e
    | .ok rs => .ok (.groups rs)
  else if toolName = "telegram_search_messages" then
    let chat := pyStrip (args.chat.getD "")
    let query := pyStrip (args.query.getD "")
    match searchMessagesTool env chat query (clampSearchLimit (args.limit.getD 20)) with
    | .error e => .error e
    | .ok out => .ok (.search out)
  else .error .unknownTool

/-! ## Helper lemmas about the string primitives -/

theorem dropWhile_head_false {α : Type} {p : α → Bool} :
    ∀ (l : List α) (c : α), (l.dropWhile p).head? = some c → p c = false := by
  intro l
  induction l with
  | nil => intro c h; simp [List.dropWhile] at h
  | cons a as ih =>
      intro c h
      by_cases hp : p a
      · exact ih c (by simpa [List.dropWhile, hp] using h)
      · have : c = a := by
          simp [List.dropWhile, hp] at h
          exact h.symm
        simpa [this] using hp

theorem all_dropWhile_nil {α : Type} {p : α → Bool} (l : List α)
    (h : ∀ x ∈ l.dropWhile p, p x = true) : l.dropWhile p = [] := by
  cases hd : l.dropWhile p with
  | nil => rfl
  | cons c cs =>
      have hc : p c = true := h c (by simp [hd])
      have hc' : p c = false := dropWhile_head_false l c (by simp [hd])
      rw [hc] at hc'
      exact absurd hc' (by simp)

theorem pyStrip_eq_empty_of (q : String) (h : pyStrip (pyStrip q) = "") :
    pyStrip q = "" := by
  have hdata : (pyStrip (pyStrip q)).data = [] := by rw [h]
  unfold pyStrip at hdata
  simp only [List.reverse_eq_nil_iff] at hdata
  have h1 : ∀ c ∈ ((pyStrip q).data.dropWhile Char.isWhitespace).reverse,
      Char.isWhitespace c = true := List.dropWhile_eq_nil_iff.mp hdata
  have h2 : (pyStrip q).data.dropWhile Char.isWhitespace = [] :=
    all_dropWhile_nil _ (fun x hx => h1 x (by simpa using hx))
  have h3 : ∀ c ∈ (pyStrip q).data, Char.isWhitespace c = true :=
    List.dropWhile_eq_nil_iff.mp h2
  unfold pyStrip at h3 ⊢
  have h4 : ((q.data.dropWhile Char.isWhitespace).reverse.dropWhile Char.isWhitespace) = [] := by
    apply all_dropWhile_nil
    intro x hx
    exact h3 x (by simpa using hx)
  rw [h4]
  rfl

/-! ## Claim theorems -/

/-- Claim C1: for every chat-reference string (here: every reference
that survives the empty-reference validation), `tools._resolve_dialog`
tries the strategies in the fixed order (a) numeric-ID lookup when the
whole trimmed string matches `-?\d+`, (b) handle lookup on the
URL- and sigil-stripped string, (c) exact case-insensitive title scan of
the caller's dialogs; its result equals the first success of that
ordered strategy list (`specResolve`, written from the spec's words);
when the string is numeric the very first remote attempt is the
numeric lookup; and the "not found" error occurs exactly when every
strategy in the list failed, in which case all three lookups were
attempted. -/
theorem resolve_strategy_order (env : ClientEnv) (reference : String)
    (h : ¬ pyStrip reference = "") :
    (resolveDialog env reference).1 = specResolve env reference
    ∧ (isNumericRef (pyStrip reference) = true →
        (resolveDialog env reference).2.head? =
          some (Attempt.numeric (refInt (pyStrip reference))))
    ∧ ((resolveDialog env reference).1 = Except.error ToolErr.notFound ↔
        firstSome (specStrategies env (pyStrip reference)) = none)
    ∧ ((resolveDialog env reference).1 = Except.error ToolErr.notFound →
        (resolveDialog env reference).2 =
          (if isNumericRef (pyStrip reference) then
            [Attempt.numeric (refInt (pyStrip reference))] else [])
          ++ [Attempt.handle (cleanedHandle (pyStrip reference)), Attempt.titleScan]) := by
  by_cases hn : isNumericRef (pyStrip reference) = true
  · cases hid : env.byId (refInt (pyStrip reference)) with
    | some e =>
        simp [resolveDialog, specResolve, specStrategies, firstSome, h, hn, hid]
    | none =>
        cases hby : env.byName (cleanedHandle (pyStrip reference)) with
        | some e =>
            simp [resolveDialog, specResolve, specStrategies, firstSome, handleStep,
              h, hn, hid, hby]
        | none =>
            cases hts : titleScanFind env (pyStrip reference) with
            | some d =>
                simp [resolveDialog, specResolve, specStrategies, firstSome, handleStep,
                  titleStep, h, hn, hid, hby, hts]
            | none =>
                simp [resolveDialog, specResolve, specStrategies, firstSome, handleStep,
                  titleStep, h, hn, hid, hby, hts]
  · cases hby : env.byName (cleanedHandle (pyStrip reference)) with
    | some e =>
        simp [resolveDialog, specResolve, specStrategies, firstSome, handleStep,
          h, hn, hby]
    | none =>
        cases hts : titleScanFind env (pyStrip reference) with
        | some d =>
            simp [resolveDialog, specResolve, specStrategies, firstSome, handleStep,
              titleStep, h, hn, hby, hts]
        | none =>
            simp [resolveDialog, specResolve, specStrategies, firstSome, handleStep,
              titleStep, h, hn, hby, hts]

/-! Concrete sample data used by the witnesses and counterexamples. -/

def userAlice : TLEntity := .user 10 (some "Alice") none (some "alice") false false

def chatAlpha : TLEntity := .chat 20 "a chat" (some 3)

def chatBeta : TLEntity := .chat 21 "b chat" none

def channelNews : TLEntity := .channel 30 "News" (some "news") false true (some 100) false false

def envExample : ClientEnv :=
  { byId := fun _ => none
    byName := fun s => if s = "example" then some userAlice else none
    dialogs := [⟨"b chat", chatBeta⟩, ⟨"a chat", chatAlpha⟩]
    messagesFor := fun _ _ => [] }

/-- Witness for C1 at the concrete reference `"abc"`. -/
theorem resolve_strategy_order_witness :
    ¬ pyStrip "abc" = ""
    ∧ (resolveDialog envExample "abc").1 = specResolve envExample "abc" :=
  ⟨by decide, (resolve_strategy_order envExample "abc" (by decide)).1⟩

/-- Claim C6: `"@example"` and `"https://t.me/example"` normalise to
the same handle `"example"`, and whenever that handle lookup succeeds
both references resolve to the same entity through the single handle
attempt. -/
theorem handle_normalization_agrees :
    cleanedHandle "@example" = "example"
    ∧ cleanedHandle "https://t.me/example" = "example"
    ∧ ∀ (env : ClientEnv) (e : TLEntity), env.byName "example" = some e →
        resolveDialog env "@example" = (Except.ok e, [Attempt.handle "example"])
        ∧ resolveDialog env "https://t.me/example" =
            (Except.ok e, [Attempt.handle "example"]) := by
  refine ⟨by decide, by decide, ?_⟩
  intro env e he
  have h1 : resolveDialog env "@example" = handleStep env "@example" [] := rfl
  have h2 : resolveDialog env "https://t.me/example" =
      handleStep env "https://t.me/example" [] := rfl
  have hc1 : cleanedHandle "@example" = "example" := by decide
  have hc2 : cleanedHandle "https://t.me/example" = "example" := by decide
  constructor
  · rw [h1]; unfold handleStep; rw [hc1]; simp [he]
  · rw [h2]; unfold handleStep; rw [hc2]; simp [he]

/-- Witness for C6 with a concrete environment in which the handle
`"example"` resolves. -/
theorem handle_normalization_agrees_witness :
    envExample.byName "example" = some userAlice
    ∧ resolveDialog envExample "@example" = (Except.ok userAlice, [Attempt.handle "example"])
    ∧ resolveDialog envExample "https://t.me/example" =
        (Except.ok userAlice, [Attempt.handle "example"]) :=
  ⟨by decide,
   (handle_normalization_agrees.2.2 envExample userAlice (by decide)).1,
   (handle_normalization_agrees.2.2 envExample userAlice (by decide)).2⟩

/-- Claim C10: a chat reference that is empty or whitespace-only is
rejected by the resolver's validation with none of the three
resolution strategies (and no resolution lookup) attempted — the
attempt trace is empty even when the preceding `get_client()` call
fails — and once the client is available the error raised is the
validation error; the dispatch layer turns a missing `chat` argument
into the empty string, so a search request without a chat argument
surfaces exactly this validation error. -/
theorem empty_chat_validation :
    (∀ (authorized : Bool) (env : ClientEnv) (reference : String),
        pyStrip reference = "" →
        (resolveDialogSvc authorized env reference).2 = []
        ∧ (authorized = true →
            resolveDialogSvc authorized env reference =
              (Except.error ToolErr.emptyChat, [])))
    ∧ (∀ (env : ClientEnv) (args : ToolArgs) (q : String),
        args.chat = none → args.query = some q → ¬ pyStrip q = "" →
        callTool env "telegram_search_messages" args =
          Except.error ToolErr.emptyChat) := by
  constructor
  · intro auth env ref h
    cases auth with
    | false => simp [resolveDialogSvc]
    | true => simp [resolveDialogSvc, resolveDialog, h]
  · intro env args q hchat hquery hq
    have hq2 : ¬ pyStrip (pyStrip q) = "" := fun hc => hq (pyStrip_eq_empty_of q hc)
    have hl : ¬ clampSearchLimit (args.limit.getD 20) ≤ 0 := by
      simp only [clampSearchLimit]; omega
    have hresolve : resolveDialog env "" = (Except.error ToolErr.emptyChat, []) := rfl
    have hstrip : pyStrip "" = "" := rfl
    simp [callTool, hchat, hquery, searchMessagesTool, hstrip, hq2, hl, hresolve]

/-- Concrete argument bag with a missing `chat`. -/
def argsMissingChat : ToolArgs :=
  { limit := none, chat := none, query := some "hello"
    includePrivate := none, includeChannels := none }

/-- Witness for C10: the whitespace-only reference `"  "` and a
dispatch call without a chat argument. -/
theorem empty_chat_validation_witness :
    (pyStrip "  " = ""
      ∧ (resolveDialogSvc true envExample "  ").2 = [])
    ∧ callTool envExample "telegram_search_messages" argsMissingChat =
        Except.error ToolErr.emptyChat :=
  ⟨⟨by decide, (empty_chat_validation.1 true envExample "  " (by decide)).1⟩,
   empty_chat_validation.2 envExample argsMissingChat "hello" rfl rfl (by decide)⟩

/-! ## Claim C5: snippets and the three-message search scenario -/

theorem collectMessages_map_ok (ms : List TMessage) :
    collectMessages (ms.map Except.ok) = Except.ok (ms.map mkMessageRecord) := by
  induction ms with
  | nil => rfl
  | cons m rest ih => simp [collectMessages, ih]

/-- Message whose (already whitespace-normal) text ends in an
ellipsis character without being anywhere near the 280-character
limit. -/
def msgEllipsis : TMessage :=
  { mid := 7, text := some "ab…", message := none, dateIso := none
    senderId := none, link := none, getSender := Except.ok none }

/-- Message containing a newline, so that its snippet is the
whitespace-normalised text and not a truncation of the raw text. -/
def msgNewline : TMessage :=
  { mid := 8, text := some "a\nb", message := none, dateIso := none
    senderId := none, link := none, getSender := Except.ok none }

def envSnippet : ClientEnv :=
  { byId := fun _ => none
    byName := fun s => if s = "news" then some channelNews else none
    dialogs := []
    messagesFor := fun e q =>
      if e = channelNews then
        if q = "release" then [Except.ok msgEllipsis, Except.ok msgNewline] else []
      else [] }

/-- Counterexample to claim C5 as stated.  The first produced record's
snippet equals the full message text (so no truncation occurred) yet
it ends in the ellipsis character, refuting "ending with an ellipsis
if and only if truncation occurred"; the second record's snippet is
the whitespace-normalised text `"a b"`, which is not a truncation
(prefix) of the raw message text `"a\nb"` at all. -/
theorem snippet_ellipsis_without_truncation_cx :
    searchMessagesTool envSnippet "@news" "release" 5 =
      Except.ok { chat := { cid := some 30, ctype := "channel"
                            title := some "News", username := some "news" }
                  query := "release"
                  messages := [mkMessageRecord msgEllipsis, mkMessageRecord msgNewline] }
    ∧ (mkMessageRecord msgEllipsis).snippet = (mkMessageRecord msgEllipsis).text
    ∧ (mkMessageRecord msgEllipsis).snippet = pyAppend "ab" "…"
    ∧ (mkMessageRecord msgNewline).snippet = "a b"
    ∧ (mkMessageRecord msgNewline).text = "a\nb"
    ∧ ("a b".data.isPrefixOf "a\nb".data) = false := by decide

/-- Claim C5 as amended: the snippet is the whitespace-normalised
message text when that fits in 280 code points, and otherwise its
first 279 code points with a one-character ellipsis appended (hence
always at most 280 code points, and every truncated snippet ends with
the ellipsis); and a search with limit 5 over a chat whose iteration
yields exactly 3 matching messages returns exactly 3 records, each
carrying its message's id. -/
theorem snippet_truncation_spec :
    (∀ text : String,
        pyLen (shorten text 280) ≤ 280
        ∧ (pyLen (normalizeWs text) ≤ 280 → shorten text 280 = normalizeWs text)
        ∧ (280 < pyLen (normalizeWs text) →
            shorten text 280 = pyAppend (pyTake (normalizeWs text) 279) "…"
            ∧ pyLen (shorten text 280) = 280))
    ∧ (∀ (env : ClientEnv) (chat query : String) (e : TLEntity) (ms : List TMessage),
        ¬ pyStrip query = "" →
        (resolveDialog env chat).1 = Except.ok e →
        env.messagesFor e query = ms.map Except.ok →
        ms.length = 3 →
        ∃ out, searchMessagesTool env chat query 5 = Except.ok out
          ∧ out.messages.length = 3
          ∧ out.messages.map MessageRecord.mid = ms.map TMessage.mid) := by
  constructor
  · intro text
    by_cases hle : pyLen (normalizeWs text) ≤ 280
    · refine ⟨?_, fun _ => ?_, fun hgt => absurd hle (by omega)⟩
      · simp only [shorten, pyLen] at hle ⊢
        rw [if_pos hle]
        exact hle
      · simp only [shorten, pyLen] at hle ⊢
        rw [if_pos hle]
    · have heq : shorten text 280 = pyAppend (pyTake (normalizeWs text) 279) "…" := by
        simp only [shorten, pyLen] at hle ⊢
        rw [if_neg hle]
      have hlen : pyLen (shorten text 280) = 280 := by
        rw [heq]
        simp only [pyLen, pyAppend, pyTake, List.length_append, List.length_take]
        have : 280 < (normalizeWs text).data.length := by
          simpa [pyLen] using Nat.lt_of_not_le hle
        have h279 : min 279 (normalizeWs text).data.length = 279 := by omega
        rw [h279]
        rfl
      exact ⟨by omega, fun hc => absurd hc (by simpa [pyLen] using hle), fun _ => ⟨heq, hlen⟩⟩
  · intro env chat query e ms hq hres hmsgs hlen
    have htake : (env.messagesFor e query).take 5 = ms.map Except.ok := by
      rw [hmsgs]
      exact List.take_of_length_le (by simp [hlen])
    have hmain : searchMessagesTool env chat query 5 =
        Except.ok { chat := { cid := some e.eid, ctype := entityType e
                              title := entityName e, username := e.usernameAttr }
                    query := query
                    messages := ms.map mkMessageRecord } := by
      simp only [searchMessagesTool]
      rw [if_neg hq, if_neg (by omega), hres]
      simp [htake, collectMessages_map_ok]
    refine ⟨_, hmain, by simp [hlen], ?_⟩
    show (ms.map mkMessageRecord).map MessageRecord.mid = ms.map TMessage.mid
    rw [List.map_map]
    rfl

def msgRel1 : TMessage :=
  { mid := 1, text := some "release one", message := none, dateIso := none
    senderId := some 10, link := none, getSender := Except.ok (some userAlice) }

def msgRel2 : TMessage :=
  { mid := 2, text := some "release two", message := none, dateIso := none
    senderId := none, link := none, getSender := Except.ok none }

def msgRel3 : TMessage :=
  { mid := 3, text := some "release three", message := none, dateIso := none
    senderId := none, link := none, getSender := Except.error () }

def envNews3 : ClientEnv :=
  { byId := fun _ => none
    byName := fun s => if s = "news" then some channelNews else none
    dialogs := []
    messagesFor := fun e q =>
      if e = channelNews then
        if q = "release" then [Except.ok msgRel1, Except.ok msgRel2, Except.ok msgRel3]
        else []
      else [] }

/-- A 300-character message text, for the truncation branch. -/
def longText : String := ⟨List.replicate 300 'a'⟩

set_option maxRecDepth 10000 in
/-- Witness for the amended C5: a short text kept verbatim, a
300-character text truncated with the ellipsis, and the concrete
`searchMessages(chat="@news", query="release", limit=5)` scenario with
exactly 3 matching messages. -/
theorem snippet_truncation_spec_witness :
    (pyLen (normalizeWs "hello world") ≤ 280
      ∧ shorten "hello world" 280 = normalizeWs "hello world")
    ∧ (280 < pyLen (normalizeWs longText)
      ∧ shorten longText 280 = pyAppend (pyTake (normalizeWs longText) 279) "…")
    ∧ ∃ out, searchMessagesTool envNews3 "@news" "release" 5 = Except.ok out
        ∧ out.messages.length = 3
        ∧ out.messages.map MessageRecord.mid =
            [msgRel1, msgRel2, msgRel3].map TMessage.mid :=
  ⟨⟨by decide, (snippet_truncation_spec.1 "hello world").2.1 (by decide)⟩,
   ⟨by decide, ((snippet_truncation_spec.1 longText).2.2 (by decide)).1⟩,
   snippet_truncation_spec.2 envNews3 "@news" "release" channelNews
     [msgRel1, msgRel2, msgRel3] (by decide) (by decide) (by decide) rfl⟩

/-! ## Claim C8: best-effort sender lookup, everything else propagates -/

theorem collectMessages_take_map_ok (n : Nat) (ms : List TMessage) :
    collectMessages ((ms.map Except.ok).take n) =
      Except.ok ((ms.map mkMessageRecord).take n) := by
  rw [← List.map_take, ← List.map_take, collectMessages_map_ok]

theorem collectMessages_take_error :
    ∀ (pre : List TMessage) (rest : List (Except Unit TMessage)) (n : Nat),
      pre.length < n →
      collectMessages ((pre.map Except.ok ++ Except.error () :: rest).take n) =
        Except.error ToolErr.remoteFailure := by
  intro pre
  induction pre with
  | nil =>
      intro rest n hn
      cases n with
      | zero => omega
      | succ k => simp [collectMessages]
  | cons m pre' ih =>
      intro rest n hn
      cases n with
      | zero => omega
      | succ k =>
          have hstep : ((m :: pre').map Except.ok ++ Except.error () :: rest).take (k + 1)
              = Except.ok m :: ((pre'.map Except.ok ++ Except.error () :: rest).take k) := by
            simp
          rw [hstep]
          simp only [collectMessages]
          rw [ih rest k (by simp at hn; omega)]

/-- Claim C8: in the record production of `tools.search_messages`,
(1) a failing `get_sender()` degrades to `sender = none`;
(2) the sender-lookup outcome influences no other field of the record;
(3) records are produced for every message the iteration yields,
sender failures included; and (4) a failure of the message iteration
itself — the only other fallible step — has no handler and aborts the
whole call, so no other error is silently swallowed. -/
theorem sender_lookup_best_effort :
    (∀ m : TMessage, m.getSender.isOk = false → (mkMessageRecord m).sender = none)
    ∧ (∀ (m : TMessage) (g : Except Unit (Option TLEntity)),
        (mkMessageRecord { m with getSender := g }).mid = (mkMessageRecord m).mid
        ∧ (mkMessageRecord { m with getSender := g }).date = (mkMessageRecord m).date
        ∧ (mkMessageRecord { m with getSender := g }).snippet = (mkMessageRecord m).snippet
        ∧ (mkMessageRecord { m with getSender := g }).text = (mkMessageRecord m).text
        ∧ (mkMessageRecord { m with getSender := g }).senderId = (mkMessageRecord m).senderId
        ∧ (mkMessageRecord { m with getSender := g }).link = (mkMessageRecord m).link)
    ∧ (∀ (env : ClientEnv) (chat query : String) (limit : Int) (e : TLEntity)
        (ms : List TMessage),
        ¬ pyStrip query = "" → 0 < limit →
        (resolveDialog env chat).1 = Except.ok e →
        env.messagesFor e query = ms.map Except.ok →
        ∃ out, searchMessagesTool env chat query limit = Except.ok out
          ∧ out.messages = (ms.take limit.toNat).map mkMessageRecord)
    ∧ (∀ (env : ClientEnv) (chat query : String) (limit : Int) (e : TLEntity)
        (pre : List TMessage) (rest : List (Except Unit TMessage)),
        ¬ pyStrip query = "" → 0 < limit →
        (resolveDialog env chat).1 = Except.ok e →
        env.messagesFor e query = pre.map Except.ok ++ Except.error () :: rest →
        pre.length < limit.toNat →
        searchMessagesTool env chat query limit = Except.error ToolErr.remoteFailure) := by
  refine ⟨?_, ?_, ?_, ?_⟩
  · intro m hg
    cases hs : m.getSender with
    | error u => simp [mkMessageRecord, hs]
    | ok v => rw [hs] at hg; simp [Except.isOk, Except.toBool] at hg
  · intro m g
    exact ⟨rfl, rfl, rfl, rfl, rfl, rfl⟩
  · intro env chat query limit e ms hq hlim hres hmsgs
    have hmain : searchMessagesTool env chat query limit =
        Except.ok { chat := { cid := some e.eid, ctype := entityType e
                              title := entityName e, username := e.usernameAttr }
                    query := query
                    messages := (ms.take limit.toNat).map mkMessageRecord } := by
      simp only [searchMessagesTool]
      rw [if_neg hq, if_neg (by omega), hres]
      simp [hmsgs, collectMessages_take_map_ok]
    exact ⟨_, hmain, rfl⟩
  · intro env chat query limit e pre rest hq hlim hres hmsgs hlt
    simp only [searchMessagesTool]
    rw [if_neg hq, if_neg (by omega), hres]
    simp [hmsgs, collectMessages_take_error pre rest limit.toNat hlt]

/-- Environment whose message iteration raises after one yielded
message. -/
def envIterFails : ClientEnv :=
  { byId := fun _ => none
    byName := fun s => if s = "news" then some channelNews else none
    dialogs := []
    messagesFor := fun e q =>
      if e = channelNews then
        if q = "release" then [Except.ok msgRel1, Except.error ()] else []
      else [] }

/-- Witness for C8: the sender lookup of `msgRel3` raises and its
record degrades to an absent sender, while a failing iteration aborts
the whole `envIterFails` search. -/
theorem sender_lookup_best_effort_witness :
    (msgRel3.getSender.isOk = false ∧ (mkMessageRecord msgRel3).sender = none)
    ∧ (∃ out, searchMessagesTool envNews3 "@news" "release" 5 = Except.ok out
        ∧ out.messages = ([msgRel1, msgRel2, msgRel3].take (Int.toNat 5)).map mkMessageRecord)
    ∧ searchMessagesTool envIterFails "@news" "release" 5 =
        Except.error ToolErr.remoteFailure :=
  ⟨⟨by decide, sender_lookup_best_effort.1 msgRel3 (by decide)⟩,
   sender_lookup_best_effort.2.2.1 envNews3 "@news" "release" 5 channelNews
     [msgRel1, msgRel2, msgRel3] (by decide) (by decide) (by decide) rfl,
   sender_lookup_best_effort.2.2.2 envIterFails "@news" "release" 5 channelNews
     [msgRel1] [] (by decide) (by decide) (by decide) rfl (by decide)⟩

/-! ## Claim C4: dispatch-layer limit handling -/

theorem resolveDialog_error_cases (env : ClientEnv) (r : String) (e : ToolErr)
    (h : (resolveDialog env r).1 = Except.error e) :
    e = ToolErr.emptyChat ∨ e = ToolErr.notFound := by
  by_cases h0 : pyStrip r = ""
  · left
    simp [resolveDialog, h0] at h
    simp_all
  · by_cases hn : isNumericRef (pyStrip r) = true
    · cases hid : env.byId (refInt (pyStrip r)) with
      | some x => simp [resolveDialog, h0, hn, hid] at h
      | none =>
          cases hby : env.byName (cleanedHandle (pyStrip r)) with
          | some x => simp [resolveDialog, handleStep, h0, hn, hid, hby] at h
          | none =>
              cases hts : titleScanFind env (pyStrip r) with
              | some d =>
                  simp [resolveDialog, handleStep, titleStep, h0, hn, hid, hby, hts] at h
              | none =>
                  right
                  simp [resolveDialog, handleStep, titleStep, h0, hn, hid, hby, hts] at h
                  simp_all
    · cases hby : env.byName (cleanedHandle (pyStrip r)) with
      | some x => simp [resolveDialog, handleStep, h0, hn, hby] at h
      | none =>
          cases hts : titleScanFind env (pyStrip r) with
          | some d => simp [resolveDialog, handleStep, titleStep, h0, hn, hby, hts] at h
          | none =>
              right
              simp [resolveDialog, handleStep, titleStep, h0, hn, hby, hts] at h
              simp_all

theorem collectMessages_error_cases :
    ∀ (l : List (Except Unit TMessage)) (e : ToolErr),
      collectMessages l = Except.error e → e = ToolErr.remoteFailure := by
  intro l
  induction l with
  | nil => intro e h; simp [collectMessages] at h
  | cons x rest ih =>
      intro e h
      cases x with
      | error u => simp [collectMessages] at h; simp_all
      | ok m =>
          simp only [collectMessages] at h
          cases hr : collectMessages rest with
          | error e' => rw [hr] at h; simp at h; rw [← h]; exact ih e' hr
          | ok rs => rw [hr] at h; simp at h

theorem searchMessagesTool_ne_nonpositive (env : ClientEnv) (chat query : String)
    (limit : Int) (h : ¬ limit ≤ 0) :
    searchMessagesTool env chat query limit ≠ Except.error ToolErr.nonPositiveLimit := by
  simp only [searchMessagesTool]
  by_cases hq : pyStrip query = ""
  · rw [if_pos hq]; simp
  · rw [if_neg hq, if_neg h]
    cases hr : (resolveDialog env chat).1 with
    | error e =>
        intro hc
        simp at hc
        rcases resolveDialog_error_cases env chat e hr with he | he <;> simp [he] at hc
    | ok e =>
        cases hc : collectMessages ((env.messagesFor e query).take limit.toNat) with
        | error e' =>
            intro hx
            simp at hx
            have := collectMessages_error_cases _ e' hc
            simp_all
        | ok rs => simp [hc]

/-- Claim C4 as amended: the tool-dispatch layer clamps the limit into
its declared bounds on both sides — 0 or a negative value becomes 1,
a value above the maximum (500 for listing, 100 for search) becomes
the maximum, in-range values pass through — and consequently a
dispatched call never fails with the non-positive-limit validation
error; the rejection of non-positive limits lives in the direct tool
functions and is unreachable through the dispatch layer. -/
theorem dispatch_limit_clamped :
    (∀ n : Int,
        (n ≤ 0 → clampListLimit n = 1 ∧ clampSearchLimit n = 1)
        ∧ (500 < n → clampListLimit n = 500)
        ∧ (100 < n → clampSearchLimit n = 100)
        ∧ (1 ≤ n → n ≤ 500 → clampListLimit n = n)
        ∧ (1 ≤ n → n ≤ 100 → clampSearchLimit n = n))
    ∧ (∀ (env : ClientEnv) (args : ToolArgs),
        callTool env "telegram_list_groups" args ≠ Except.error ToolErr.nonPositiveLimit
        ∧ callTool env "telegram_search_messages" args ≠
            Except.error ToolErr.nonPositiveLimit) := by
  constructor
  · intro n
    refine ⟨fun h => ⟨?_, ?_⟩, fun h => ?_, fun h => ?_, fun h1 h2 => ?_, fun h1 h2 => ?_⟩ <;>
      simp only [clampListLimit, clampSearchLimit] <;> omega
  · intro env args
    constructor
    · simp only [callTool]
      rw [if_pos trivial]
      have h1 : ¬ clampListLimit (args.limit.getD 50) ≤ 0 := by
        simp only [clampListLimit]; omega
      simp [listGroups, h1]
    · simp only [callTool]
      rw [if_pos trivial]
      have h1 : ¬ clampSearchLimit (args.limit.getD 20) ≤ 0 := by
        simp only [clampSearchLimit]; omega
      have h2 := searchMessagesTool_ne_nonpositive env (pyStrip (args.chat.getD ""))
        (pyStrip (args.query.getD "")) (clampSearchLimit (args.limit.getD 20)) h1
      cases hs : searchMessagesTool env (pyStrip (args.chat.getD ""))
          (pyStrip (args.query.getD "")) (clampSearchLimit (args.limit.getD 20)) with
      | error e => rw [hs] at h2; intro hc; simp at hc; simp_all
      | ok out => simp

/-- Argument bag carrying the out-of-range limit `0`. -/
def argsLimitZero : ToolArgs :=
  { limit := some 0, chat := none, query := none
    includePrivate := none, includeChannels := none }

/-- Counterexample to claim C4 as stated: at the tool-dispatch layer a
limit of `0` is not rejected — the call succeeds — and the limit is
clamped up to `1`, so only the first of the two eligible dialogs is
returned. -/
theorem dispatch_limit_zero_not_rejected_cx :
    callTool envExample "telegram_list_groups" argsLimitZero =
      Except.ok (ToolResult.groups
        [{ gid := 21, title := "b chat", gtype := "group", username := none
           isMegagroup := false, isBroadcast := false, participants := none }])
    ∧ envExample.dialogs.length = 2 := by decide

/-- Witness for the amended C4 at the concrete limits `0` and `700`. -/
theorem dispatch_limit_clamped_witness :
    ((0 : Int) ≤ 0 ∧ clampListLimit 0 = 1 ∧ clampSearchLimit 0 = 1)
    ∧ (500 < (700 : Int) ∧ clampListLimit 700 = 500)
    ∧ callTool envExample "telegram_list_groups" argsLimitZero ≠
        Except.error ToolErr.nonPositiveLimit :=
  ⟨⟨by decide, (dispatch_limit_clamped.1 0).1 (by decide)⟩,
   ⟨by decide, (dispatch_limit_clamped.1 700).2.1 (by decide)⟩,
   (dispatch_limit_clamped.2 envExample argsLimitZero).1⟩

/-! ## Claim C2: dialog listing

`TelegramClientManager.list_dialogs` (telegram_client.py) filters by
the Telethon `Dialog.is_user` / `Dialog.is_channel` flags and an
optional case-insensitive title substring, then sorts ascending by
lowercased title.  The tool actually wired into the MCP server,
`tools.list_groups`, is a divergent twin that performs no sorting. -/

/-- Modelled after Telethon `utils.get_display_name` (an external
collaborator of the repository): a user's joined first/last name (or
`""`), the title for chats, forbidden chats and channels, and `""`
for forbidden channels. -/
def displayName : TLEntity → String
  | .user _ f l _ _ _ =>
      let fv := f.getD ""
      let lv := l.getD ""
      if fv ≠ "" && lv ≠ "" then pyAppend fv (pyAppend " " lv)
      else if fv ≠ "" then fv
      else if lv ≠ "" then lv
      else ""
  | .chat _ t _ => t
  | .channel _ t _ _ _ _ _ _ => t
  | .chatForbidden _ t => t
  | .channelForbidden _ _ => ""

/-- Modelled after Telethon `utils.get_peer_id` (external
collaborator): Bot-API-style marked identifier — the user id itself,
the negated chat id, and the channel id marked below `-10^12`.  The
`str(...)` wrapping used by the source is a bijective decimal
rendering and is omitted. -/
def peerId : TLEntity → Int
  | .user i _ _ _ _ _ => i
  | .chat i _ _ => -i
  | .chatForbidden i _ => -i
  | .channel i _ _ _ _ _ _ _ => -(1000000000000 + i)
  | .channelForbidden i _ => -(1000000000000 + i)

/-- One element of `client.iter_dialogs(...)` as used by
`list_dialogs`: the entity plus the dialog-level attributes read from
the Telethon `Dialog` wrapper (`ignore_migrated=True` is reflected in
the stream itself). -/
structure TCDialog where
  entity : TLEntity
  unreadCount : Int
  pinned : Bool
deriving DecidableEq, Repr

/-- `config.ListDialogsRequest` (its pydantic bounds `1 ≤ limit ≤ 200`
are not needed below). -/
structure ListDialogsRequest where
  limit : Nat
  search : Option String
  includePrivate : Bool
  includeChannels : Bool

/-- One entry of the list returned by `list_dialogs`. -/
structure DialogRecord where
  did : Int
  title : String
  dtype : String
  username : Option String
  unreadCount : Int
  pinned : Bool
  isVerified : Bool
  isRestricted : Bool
deriving DecidableEq, Repr

/-- `TelegramClientManager._entity_type` (this variant checks `User`
first and sends the forbidden classes to the lowercased class
name). -/
def entityTypeTC : TLEntity → String
  | .user .. => "user"
  | .channel _ _ _ mega _ _ _ _ => if !mega then "channel" else "supergroup"
  | .chat .. => "group"
  | .chatForbidden .. => "chatforbidden"
  | .channelForbidden .. => "channelforbidden"

/-- `TelegramClientManager._should_include_dialog`: Telethon's
`Dialog.is_user` holds for user entities and `Dialog.is_channel` for
`Channel` entities. -/
def shouldIncludeDialog (d : TCDialog) (includePrivate includeChannels : Bool) : Bool :=
  if d.entity.isUser && !includePrivate then false
  else if d.entity.isChannel && !includeChannels then false
  else true

/-- The search filter of `list_dialogs`:
`params.search and params.search.lower() not in title.lower()`
skips the dialog, so a missing or empty (falsy) term admits
everything. -/
def searchAdmits (search : Option String) (title : String) : Bool :=
  match search with
  | none => true
  | some s => if s = "" then true else pyContains (pyLower title) (pyLower s)

/-- The record built for one admitted dialog. -/
def mkDialogRecord (d : TCDialog) : DialogRecord :=
  { did := peerId d.entity, title := displayName d.entity
    dtype := entityTypeTC d.entity, username := d.entity.usernameAttr
    unreadCount := d.unreadCount, pinned := d.pinned
    isVerified := d.entity.verifiedAttr, isRestricted := d.entity.restrictedAttr }

/-- The whole loop body of `list_dialogs` for one dialog. -/
def dialogRecordOf (req : ListDialogsRequest) (d : TCDialog) : Option DialogRecord :=
  if !shouldIncludeDialog d req.includePrivate req.includeChannels then none
  else if !searchAdmits req.search (displayName d.entity) then none
  else some (mkDialogRecord d)

/-- Sort key order of `dialogs.sort(key=lambda item: item["title"].lower())`:
ascending, code-point lexicographic on the lowercased title. -/
def titleLe (a b : DialogRecord) : Prop :=
  (pyLower a.title).data ≤ (pyLower b.title).data

instance : DecidableRel titleLe := fun a b =>
  inferInstanceAs (Decidable ((pyLower a.title).data ≤ (pyLower b.title).data))

/-- `TelegramClientManager.list_dialogs`: iterate at most `limit`
dialogs, filter, then sort ascending by lowercased title.  Python's
stable ascending sort is rendered as insertion sort (two stable sorts
under the same total preorder agree). -/
def listDialogs (dialogs : List TCDialog) (req : ListDialogsRequest) : List DialogRecord :=
  List.insertionSort titleLe ((dialogs.take req.limit).filterMap (dialogRecordOf req))

/-- Claim C2 as amended (it holds for the connection manager's
`list_dialogs` operation): the returned list is sorted ascending by
lowercased title; every returned record stems from an iterated dialog
admitted by the `include_private`/`include_channels` flags and by the
optional case-insensitive search term; and every admitted iterated
dialog is returned.  The served tool `tools.list_groups` is the
divergent twin that does not sort (see the counterexample). -/
theorem list_dialogs_filter_sorted :
    ∀ (dialogs : List TCDialog) (req : ListDialogsRequest),
      List.Sorted titleLe (listDialogs dialogs req)
      ∧ (∀ r ∈ listDialogs dialogs req, ∃ d ∈ dialogs,
          r = mkDialogRecord d
          ∧ shouldIncludeDialog d req.includePrivate req.includeChannels = true
          ∧ searchAdmits req.search (displayName d.entity) = true)
      ∧ (∀ d ∈ dialogs.take req.limit,
          shouldIncludeDialog d req.includePrivate req.includeChannels = true →
          searchAdmits req.search (displayName d.entity) = true →
          mkDialogRecord d ∈ listDialogs dialogs req) := by
  intro dialogs req
  haveI : IsTotal DialogRecord titleLe := ⟨fun a b => le_total _ _⟩
  haveI : IsTrans DialogRecord titleLe := ⟨fun a b c hab hbc => le_trans hab hbc⟩
  refine ⟨List.sorted_insertionSort _ _, ?_, ?_⟩
  · intro r hr
    have hr2 : r ∈ (dialogs.take req.limit).filterMap (dialogRecordOf req) :=
      (List.perm_insertionSort _ _).mem_iff.mp hr
    rcases List.mem_filterMap.mp hr2 with ⟨d, hd, hrec⟩
    refine ⟨d, List.take_subset _ _ hd, ?_⟩
    by_cases h1 : shouldIncludeDialog d req.includePrivate req.includeChannels = true
    · by_cases h2 : searchAdmits req.search (displayName d.entity) = true
      · simp [dialogRecordOf, h1, h2] at hrec
        exact ⟨hrec.symm, h1, h2⟩
      · simp [dialogRecordOf, h1, h2] at hrec
    · simp [dialogRecordOf, h1] at hrec
  · intro d hd h1 h2
    apply (List.perm_insertionSort _ _).mem_iff.mpr
    apply List.mem_filterMap.mpr
    exact ⟨d, hd, by simp [dialogRecordOf, h1, h2]⟩

/-- Witness for the amended C2 on a concrete dialog list. -/
theorem list_dialogs_filter_sorted_witness :
    List.Sorted titleLe
      (listDialogs [⟨chatBeta, 0, false⟩, ⟨chatAlpha, 2, true⟩]
        { limit := 50, search := none, includePrivate := false, includeChannels := true })
    ∧ mkDialogRecord ⟨chatAlpha, 2, true⟩ ∈
        listDialogs [⟨chatBeta, 0, false⟩, ⟨chatAlpha, 2, true⟩]
          { limit := 50, search := none, includePrivate := false, includeChannels := true } :=
  ⟨(list_dialogs_filter_sorted [⟨chatBeta, 0, false⟩, ⟨chatAlpha, 2, true⟩]
      { limit := 50, search := none, includePrivate := false, includeChannels := true }).1,
   (list_dialogs_filter_sorted [⟨chatBeta, 0, false⟩, ⟨chatAlpha, 2, true⟩]
      { limit := 50, search := none, includePrivate := false, includeChannels := true }).2.2
     ⟨chatAlpha, 2, true⟩ (by decide) (by decide) (by decide)⟩

/-- Default dispatch arguments for a listing request. -/
def argsListDefault : ToolArgs :=
  { limit := some 10, chat := none, query := none
    includePrivate := none, includeChannels := none }

/-- Counterexample to claim C2 as stated: the dialog-listing request
served by the wired MCP tool (`server._call_tool` →
`tools.list_groups`) returns the records in iteration order
`["b chat", "a chat"]`, which is not sorted ascending by lowercased
title. -/
theorem list_groups_unsorted_cx :
    callTool envExample "telegram_list_groups" argsListDefault =
      Except.ok (ToolResult.groups
        [{ gid := 21, title := "b chat", gtype := "group", username := none
           isMegagroup := false, isBroadcast := false, participants := none },
         { gid := 20, title := "a chat", gtype := "group", username := none
           isMegagroup := false, isBroadcast := false, participants := some 3 }])
    ∧ ¬ List.Pairwise
        (fun x y : GroupRecord => (pyLower x.title).data ≤ (pyLower y.title).data)
        [{ gid := 21, title := "b chat", gtype := "group", username := none
           isMegagroup := false, isBroadcast := false, participants := none },
         { gid := 20, title := "a chat", gtype := "group", username := none
           isMegagroup := false, isBroadcast := false, participants := some 3 }] := by
  decide

/-! ## Claim C7: send-message validation before remote calls -/

/-- `config.SendMessageRequest` after pydantic validation. -/
structure SendMessageRequest where
  chat : String
  message : String
  replyTo : Option Int
deriving DecidableEq, Repr

/-- Pydantic construction of `SendMessageRequest`: the `message` field
carries `min_length=1`, so an empty body fails validation and no
request object exists. -/
def mkSendMessageRequest (chat message : String) (replyTo : Option Int) :
    Except ToolErr SendMessageRequest :=
  if pyLen message < 1 then .error .emptyMessage
  else .ok { chat := chat, message := message, replyTo := replyTo }

/-- Python `int(s)` applicability on an already-stripped string: an
optional sign followed by digits (the exotic forms such as underscore
separators are not modelled). -/
def pyIntOk (s : String) : Bool :=
  let t := if pyStartsWith s "-" || pyStartsWith s "+" then pyDrop s 1 else s
  !t.data.isEmpty && t.data.all Char.isDigit

/-- Value of Python `int(s)` when `pyIntOk s` holds. -/
def pyIntVal (s : String) : Int :=
  if pyStartsWith s "-" then - Int.ofNat (digitsToNat (pyDrop s 1).data)
  else if pyStartsWith s "+" then Int.ofNat (digitsToNat (pyDrop s 1).data)
  else Int.ofNat (digitsToNat s.data)

/-- `TelegramClientManager._resolve_chat` on a string reference: an
`@`-prefixed stripped string passes through verbatim, otherwise
`int(...)` is attempted, otherwise the raw stripped string is used;
the single `get_entity` call receives the result (no fallback chain
and no title scan happen in this variant). -/
def resolveChatIdent (chat : String) : Sum Int String :=
  let s := pyStrip chat
  if pyStartsWith s "@" then Sum.inr s
  else if pyIntOk s then Sum.inl (pyIntVal s) else Sum.inr s

/-- Remote interactions of the send path, in order. -/
inductive SendEv where
  | getClient
  | resolveEntity
  | sendMessage
deriving DecidableEq, Repr

/-- Oracle for `TelegramClientManager.send_message`: the entity
lookup (`none` = the call raises) and the outcome of
`client.send_message` (`Except.error secs` = `FloodWaitError`). -/
structure SendEnv where
  getEntity : Sum Int String → Option TLEntity
  sendOutcome : Except Nat TMessage

/-- `TelegramClientManager.send_message` after validation: obtain the
client, resolve the chat, send; a `FloodWaitError` is mapped to a
rate-limited condition carrying the suggested wait (and is not
retried).  The `_serialize_message` field mapping of the sent message
is not read by any claim and is left as the message itself. -/
def sendMessageOp (env : SendEnv) (params : SendMessageRequest) :
    Except ToolErr TMessage × List SendEv :=
  match env.getEntity (resolveChatIdent params.chat) with
  | none => (.error .notFound, [.getClient, .resolveEntity])
  | some _ =>
      match env.sendOutcome with
      | .error secs => (.error (.rateLimited secs), [.getClient, .resolveEntity, .sendMessage])
      | .ok sent => (.ok sent, [.getClient, .resolveEntity, .sendMessage])

/-- A send request as it travels through validation into the manager
operation. -/
def sendMessagePipeline (env : SendEnv) (chat message : String) (replyTo : Option Int) :
    Except ToolErr TMessage × List SendEv :=
  match mkSendMessageRequest chat message replyTo with
  | .error e => (.error e, [])
  | .ok params => sendMessageOp env params

/-- Claim C7: every send-message request with an empty message body is
rejected by the request validation before any remote interaction (the
event trace is empty, so no client call, no resolution and no send
happen) and nothing is sent. -/
theorem send_empty_message_rejected :
    ∀ (env : SendEnv) (chat : String) (replyTo : Option Int),
      sendMessagePipeline env chat "" replyTo =
        (Except.error ToolErr.emptyMessage, []) := by
  intro env chat replyTo
  rfl

/-! ## Claim C3: unauthorized sessions disconnect before raising -/

/-- The Telethon client object as the service sees it. -/
structure SClient where
  cid : Nat
  connected : Bool
  authorized : Bool
deriving DecidableEq, Repr

/-- The mutable state of `TelegramService`: the cached client (plus a
counter to give fresh clients distinct identities). -/
structure SState where
  client : Option SClient
  nextId : Nat
deriving DecidableEq, Repr

/-- Connection-lifecycle events of `_ensure_client`. -/
inductive SvcEv where
  | connect
  | disconnect
deriving DecidableEq, Repr

/-- Result of one `_ensure_client` call: the new service state, the
returned client or raised error, and the remote events in order. -/
structure SvcStep where
  state : SState
  result : Except ToolErr SClient
  events : List SvcEv
deriving DecidableEq, Repr

/-- The fresh-connection tail of `_ensure_client`: build a client,
`connect()`, check `is_user_authorized()`; on failure `disconnect()`
first and then raise, leaving `self._client` untouched; on success
publish the client. -/
def ensureClientConnect (auth : Bool) (st : SState) : SvcStep :=
  let c : SClient := { cid := st.nextId, connected := true, authorized := auth }
  if auth = false then
    { state := { client := st.client, nextId := st.nextId + 1 }
      result := .error .unauthorized
      events := [.connect, .disconnect] }
  else
    { state := { client := some c, nextId := st.nextId + 1 }
      result := .ok c
      events := [.connect] }

/-- The body under the lock: the fast-path condition is re-checked
("double check после ожидания") before connecting. -/
def ensureClientLocked (auth : Bool) (st : SState) : SvcStep :=
  match st.client with
  | some c =>
      if c.connected then { state := st, result := .ok c, events := [] }
      else ensureClientConnect auth st
  | none => ensureClientConnect auth st

/-- `TelegramService._ensure_client`, sequential view (the concurrent
interleaving under the lock is modelled separately below): return the
cached connected client if any, else run the locked body.  `auth` is
what `is_user_authorized()` would report for a fresh connection. -/
def ensureClient (auth : Bool) (st : SState) : SvcStep :=
  match st.client with
  | some c =>
      if c.connected then { state := st, result := .ok c, events := [] }
      else ensureClientLocked auth st
  | none => ensureClientLocked auth st

/-- Claim C3: whenever the accessor finds the fresh session
unauthorized it disconnects before raising — the event trace is
`connect` then `disconnect`, the result is the unauthorized error, and
the stored state keeps no connected client (it stays Disconnected) —
so the next call attempts a connection from scratch again (its event
trace contains `connect` whatever the authorization outcome). -/
theorem ensure_client_unauthorized_disconnects :
    ∀ st : SState, (∀ c, st.client = some c → c.connected = false) →
      (ensureClient false st).result = Except.error ToolErr.unauthorized
      ∧ (ensureClient false st).events = [SvcEv.connect, SvcEv.disconnect]
      ∧ (ensureClient false st).state.client = st.client
      ∧ (∀ c, (ensureClient false st).state.client = some c → c.connected = false)
      ∧ (∀ auth, SvcEv.connect ∈ (ensureClient auth (ensureClient false st).state).events) := by
  intro st h
  cases hc : st.client with
  | none =>
      have he : ensureClient false st = ensureClientConnect false st := by
        simp [ensureClient, ensureClientLocked, hc]
      rw [he]
      refine ⟨rfl, rfl, by simp [ensureClientConnect, hc], ?_, ?_⟩
      · intro c hcc
        simp [ensureClientConnect, hc] at hcc
      · intro auth
        cases auth <;>
          simp [ensureClient, ensureClientLocked, ensureClientConnect, hc]
  | some c =>
      have hcc : c.connected = false := h c hc
      have he : ensureClient false st = ensureClientConnect false st := by
        simp [ensureClient, ensureClientLocked, hc, hcc]
      rw [he]
      refine ⟨rfl, rfl, by simp [ensureClientConnect, hc], ?_, ?_⟩
      · intro c2 hc2
        simp [ensureClientConnect, hc] at hc2
        rw [← hc2]
        exact hcc
      · intro auth
        cases auth <;>
          simp [ensureClient, ensureClientLocked, ensureClientConnect, hc, hcc]

/-- Witness for C3 at the initial (never-connected) state. -/
theorem ensure_client_unauthorized_disconnects_witness :
    (ensureClient false { client := none, nextId := 0 }).result =
        Except.error ToolErr.unauthorized
    ∧ (ensureClient false { client := none, nextId := 0 }).events =
        [SvcEv.connect, SvcEv.disconnect] :=
  ⟨(ensure_client_unauthorized_disconnects { client := none, nextId := 0 }
      (fun _ h => Option.noConfusion h)).1,
   (ensure_client_unauthorized_disconnects { client := none, nextId := 0 }
      (fun _ h => Option.noConfusion h)).2.1⟩

/-! ## Claim C9: single initialization under concurrent first use

`TelegramService._ensure_client` is an `async` function; its execution
is atomic between `await` points, and `async with self._lock` parks a
caller while the lock is held (an uncontended `acquire` returns
synchronously).  Two concurrent callers are modelled as two task
program counters over the shared service state; a schedule picks which
task resumes at each step.  The environment is the successful
first-use scenario: a fresh connection reports `is_user_authorized() =
True`. -/

namespace Conc

/-- Resting points of one `_ensure_client` call between `await`s. -/
inductive PC where
  | start
  | waitLock
  | connecting
  | authing
  | done (cid : Nat)
deriving DecidableEq, Repr

/-- The shared service state: the asyncio lock, `self._client` (the id
of the published, connected client), a fresh-identity counter for
created clients, and the number of `connect()` calls started. -/
structure Shared where
  lock : Bool
  shared : Option Nat
  nextId : Nat
  connects : Nat
deriving DecidableEq, Repr

/-- Two concurrent callers: shared state, each task's program counter,
and the id of the client each task is initializing (meaningful while
it is in `connecting`/`authing`). -/
structure CState where
  g : Shared
  pc0 : PC
  pc1 : PC
  l0 : Nat
  l1 : Nat
deriving DecidableEq, Repr

/-- One scheduled resumption of a task running `_ensure_client`:

* `start`: the unlocked fast check returns the cached connected client
  when present; otherwise the task parks on a held lock, or — the
  uncontended `acquire` running synchronously — re-checks under the
  lock (still no client: no `await` happened in between), creates a
  client and starts `connect()`;
* `waitLock`: woken with the lock free, the task acquires it,
  re-checks ("double check после ожидания") — returning the published
  client and releasing if the check now passes — else creates and
  starts `connect()`;
* `connecting`: `connect()` finished; `is_user_authorized()` starts;
* `authing`: the check passed; publish `self._client`, release the
  lock, return. -/
def taskStep (g : Shared) (pc : PC) (lcl : Nat) : Shared × PC × Nat :=
  match pc with
  | .start =>
      match g.shared with
      | some c => (g, .done c, lcl)
      | none =>
          if g.lock then (g, .waitLock, lcl)
          else
            ({ lock := true, shared := none, nextId := g.nextId + 1
               connects := g.connects + 1 }, .connecting, g.nextId)
  | .waitLock =>
      if g.lock then (g, .waitLock, lcl)
      else
        match g.shared with
        | some c => (g, .done c, lcl)
        | none =>
            ({ lock := true, shared := none, nextId := g.nextId + 1
               connects := g.connects + 1 }, .connecting, g.nextId)
  | .connecting => (g, .authing, lcl)
  | .authing => ({ g with shared := some lcl, lock := false }, .done lcl, lcl)
  | .done c => (g, .done c, lcl)

/-- Resume task 1 (`who = true`) or task 0 (`who = false`). -/
def step (who : Bool) (s : CState) : CState :=
  if who then
    let r := taskStep s.g s.pc1 s.l1
    { g := r.1, pc0 := s.pc0, pc1 := r.2.1, l0 := s.l0, l1 := r.2.2 }
  else
    let r := taskStep s.g s.pc0 s.l0
    { g := r.1, pc0 := r.2.1, pc1 := s.pc1, l0 := r.2.2, l1 := s.l1 }

/-- Concurrent first use: no client, lock free, both callers about to
enter the accessor. -/
def init : CState :=
  { g := { lock := false, shared := none, nextId := 0, connects := 0 }
    pc0 := .start, pc1 := .start, l0 := 0, l1 := 0 }

/-- Run a schedule from the initial state. -/
def run (sched : List Bool) : CState :=
  sched.foldl (fun s who => step who s) init

/-- A task holds the lock exactly while initializing. -/
def owner : PC → Bool
  | .connecting => true
  | .authing => true
  | _ => false

/-- The inductive invariant: the lock is held iff some task is
initializing, at most one task initializes at a time, the number of
started `connect()` calls equals the number of initializations in
flight plus the published client, a published client means nobody is
initializing any more, and a finished task returned exactly the
published client. -/
def Inv (s : CState) : Prop :=
  s.g.lock = (owner s.pc0 || owner s.pc1)
  ∧ (owner s.pc0 && owner s.pc1) = false
  ∧ s.g.connects =
      (cond (owner s.pc0) 1 0) + (cond (owner s.pc1) 1 0)
        + (cond s.g.shared.isSome 1 0)
  ∧ (s.g.shared.isSome = true → owner s.pc0 = false ∧ owner s.pc1 = false)
  ∧ (∀ c, s.pc0 = .done c → s.g.shared = some c)
  ∧ (∀ c, s.pc1 = .done c → s.g.shared = some c)

theorem inv_init : Inv init := by
  refine ⟨rfl, rfl, rfl, by simp [init], ?_, ?_⟩ <;>
    (intro c h; simp [init] at h)

theorem inv_step (s : CState) (who : Bool) (h : Inv s) : Inv (step who s) := by
  obtain ⟨hA, hB, hC, hD, hE0, hE1⟩ := h
  cases who
  case false =>
    cases hpc : s.pc0 with
    | start =>
        cases hsh : s.g.shared with
        | some c =>
            have hd := hD (by rw [hsh]; rfl)
            refine ⟨?_, ?_, ?_, ?_, ?_, ?_⟩ <;>
              simp_all [step, taskStep, owner]
        | none =>
            cases hlk : s.g.lock with
            | true =>
                refine ⟨?_, ?_, ?_, ?_, ?_, ?_⟩ <;>
                  simp_all [step, taskStep, owner]
            | false =>
                have ho1 : owner s.pc1 = false := by
                  have h2 := hA
                  rw [hlk, hpc] at h2
                  simp [owner] at h2
                  exact h2
                refine ⟨?_, ?_, ?_, ?_, ?_, ?_⟩ <;>
                  simp_all [step, taskStep, owner]
    | waitLock =>
        cases hlk : s.g.lock with
        | true =>
            refine ⟨?_, ?_, ?_, ?_, ?_, ?_⟩ <;>
              simp_all [step, taskStep, owner]
        | false =>
            have ho1 : owner s.pc1 = false := by
              have h2 := hA
              rw [hlk, hpc] at h2
              simp [owner] at h2
              exact h2
            cases hsh : s.g.shared with
            | some c =>
                have hd := hD (by rw [hsh]; rfl)
                refine ⟨?_, ?_, ?_, ?_, ?_, ?_⟩ <;>
                  simp_all [step, taskStep, owner]
            | none =>
                refine ⟨?_, ?_, ?_, ?_, ?_, ?_⟩ <;>
                  simp_all [step, taskStep, owner]
    | connecting =>
        refine ⟨?_, ?_, ?_, ?_, ?_, ?_⟩ <;>
          simp_all [step, taskStep, owner]
    | authing =>
        have ho1 : owner s.pc1 = false := by
          have h2 := hB
          rw [hpc] at h2
          simp [owner] at h2
          exact h2
        have hsh : s.g.shared = none := by
          cases hsh2 : s.g.shared with
          | none => rfl
          | some c =>
              have hd := hD (by rw [hsh2]; rfl)
              rw [hpc] at hd
              simp [owner] at hd
        refine ⟨?_, ?_, ?_, ?_, ?_, ?_⟩ <;>
          simp_all [step, taskStep, owner]
    | done c =>
        refine ⟨?_, ?_, ?_, ?_, ?_, ?_⟩ <;>
          simp_all [step, taskStep, owner]
  case true =>
    cases hpc : s.pc1 with
    | start =>
        cases hsh : s.g.shared with
        | some c =>
            have hd := hD (by rw [hsh]; rfl)
            refine ⟨?_, ?_, ?_, ?_, ?_, ?_⟩ <;>
              simp_all [step, taskStep, owner]
        | none =>
            cases hlk : s.g.lock with
            | true =>
                refine ⟨?_, ?_, ?_, ?_, ?_, ?_⟩ <;>
                  simp_all [step, taskStep, owner]
            | false =>
                have ho0 : owner s.pc0 = false := by
                  have h2 := hA
                  rw [hlk, hpc] at h2
                  simp [owner] at h2
                  exact h2
                refine ⟨?_, ?_, ?_, ?_, ?_, ?_⟩ <;>
                  simp_all [step, taskStep, owner]
    | waitLock =>
        cases hlk : s.g.lock with
        | true =>
            refine ⟨?_, ?_, ?_, ?_, ?_, ?_⟩ <;>
              simp_all [step, taskStep, owner]
        | false =>
            have ho0 : owner s.pc0 = false := by
              have h2 := hA
              rw [hlk, hpc] at h2
              simp [owner] at h2
              exact h2
            cases hsh : s.g.shared with
            | some c =>
                have hd := hD (by rw [hsh]; rfl)
                refine ⟨?_, ?_, ?_, ?_, ?_, ?_⟩ <;>
                  simp_all [step, taskStep, owner]
            | none =>
                refine ⟨?_, ?_, ?_, ?_, ?_, ?_⟩ <;>
                  simp_all [step, taskStep, owner]
    | connecting =>
        refine ⟨?_, ?_, ?_, ?_, ?_, ?_⟩ <;>
          simp_all [step, taskStep, owner]
    | authing =>
        have ho0 : owner s.pc0 = false := by
          have h2 := hB
          rw [hpc] at h2
          simp [owner] at h2
          exact h2
        have hsh : s.g.shared = none := by
          cases hsh2 : s.g.shared with
          | none => rfl
          | some c =>
              have hd := hD (by rw [hsh2]; rfl)
              rw [hpc] at hd
              simp [owner] at hd
        refine ⟨?_, ?_, ?_, ?_, ?_, ?_⟩ <;>
          simp_all [step, taskStep, owner]
    | done c =>
        refine ⟨?_, ?_, ?_, ?_, ?_, ?_⟩ <;>
          simp_all [step, taskStep, owner]

theorem inv_run (sched : List Bool) : Inv (run sched) := by
  have hgen : ∀ (l : List Bool) (s : CState), Inv s →
      Inv (l.foldl (fun s who => step who s) s) := by
    intro l
    induction l with
    | nil => intro s hs; exact hs
    | cons w ws ih => intro s hs; exact ih _ (inv_step s w hs)
  exact hgen sched init inv_init

/-- Claim C9: under every interleaving of two concurrent callers of
the connection accessor, at most one client-creation/connect sequence
is ever started — exactly one once both callers have returned — and
both callers return the one published client object. -/
theorem single_initialization :
    ∀ sched : List Bool,
      (run sched).g.connects ≤ 1
      ∧ (∀ a b, (run sched).pc0 = PC.done a → (run sched).pc1 = PC.done b →
          a = b ∧ (run sched).g.connects = 1 ∧ (run sched).g.shared = some a) := by
  intro sched
  obtain ⟨hA, hB, hC, hD, hE0, hE1⟩ := inv_run sched
  constructor
  · cases hsh : (run sched).g.shared with
    | some c =>
        have hd := hD (by rw [hsh]; rfl)
        rw [hsh, hd.1, hd.2] at hC
        simp at hC
        omega
    | none =>
        rw [hsh] at hC
        cases ho0 : owner (run sched).pc0 <;> cases ho1 : owner (run sched).pc1 <;>
          simp_all
  · intro a b ha hb
    have hsa := hE0 a ha
    have hsb := hE1 b hb
    have hab : a = b := by
      rw [hsa] at hsb
      exact Option.some.inj hsb
    have ho0 : owner (run sched).pc0 = false := by rw [ha]; rfl
    have ho1 : owner (run sched).pc1 = false := by rw [hb]; rfl
    rw [ho0, ho1, hsa] at hC
    simp at hC
    exact ⟨hab, by omega, hsa⟩

/-- Witness for C9: the schedule that lets task 0 initialize fully and
then schedules task 1, after which both tasks have returned the same
client and exactly one connect was started. -/
theorem single_initialization_witness :
    (run [false, false, false, true]).pc0 = PC.done 0
    ∧ (run [false, false, false, true]).pc1 = PC.done 0
    ∧ ((0 : Nat) = 0 ∧ (run [false, false, false, true]).g.connects = 1
        ∧ (run [false, false, false, true]).g.shared = some 0) :=
  ⟨by decide, by decide,
   (single_initialization [false, false, false, true]).2 0 0 (by decide) (by decide)⟩

end Conc

end Tgbot
